import Mathlib

/-!
Shallow embedding of `runpod-handler.py` (rfldln/comfyui-serverless).

The program is a single serverless handler.  Effects are modelled as explicit
inputs: the filesystem (existence of model files, the listing of the ComfyUI
output directory with modification times, readability of image files), the
outcome of the ComfyUI setup/execution calls, the network (outcome of each
`requests.post`), the generated uuid and the clock.  The handler returns a
result value together with the ordered list of webhook deliveries it
attempted.  Machine-level details that the claims do not touch (actual HTTP,
UTF-8 byte positions, float mtimes) are modelled with `String`, `List Char`
and `Nat` timestamps.
-/

/-- Check that `pat` is a prefix of `l` (character lists). -/
def listStartsWith : List Char → List Char → Bool
  | [], _ => true
  | _ :: _, [] => false
  | a :: as, b :: bs => a == b && listStartsWith as bs

/-- Check that `needle` occurs as a contiguous substring of `haystack`. -/
def containsSub (needle : List Char) : List Char → Bool
  | [] => needle.isEmpty
  | c :: rest => listStartsWith needle (c :: rest) || containsSub needle rest

/-- Characters of the fixed filename tag `runpod_generation` used in the glob
pattern at line 218 of `runpod-handler.py` (17 characters). -/
def rgTagChars : List Char :=
  ['r', 'u', 'n', 'p', 'o', 'd', '_', 'g', 'e', 'n', 'e', 'r', 'a', 't', 'i', 'o', 'n']

/-- The reversed characters of the `.png` extension. -/
def pngRevChars : List Char := ['g', 'n', 'p', '.']

/-- Does the filename end in `.png`?  This is glob matching against the
fallback pattern `*.png` of line 223 (`*` on a single filename component). -/
def isPng (name : String) : Bool :=
  listStartsWith pngRevChars name.data.reverse

/-- Glob matching of a filename against the tagged pattern
`runpod_generation*{job_id}*.png` built at line 218: the name decomposes as
`"runpod_generation" ++ a ++ job_id ++ b ++ ".png"`.  Equivalently (the prefix
and the suffix cannot overlap, since character 16 of any name carrying both is
forced to be `n` by the prefix and a character of `.png` by the suffix): the
name starts with the tag, ends in `.png`, and the middle part between them
contains `job_id`.  `job_id` is assumed to contain no glob metacharacters. -/
def taggedMatch (job_id name : String) : Bool :=
  listStartsWith rgTagChars name.data && isPng name &&
    containsSub job_id.data ((name.data.drop 17).take (name.data.length - 17 - 4))

/-- One file of the ComfyUI output directory: its name and its modification
time (`os.path.getmtime`, modelled as a natural number). -/
structure FileEntry where
  name : String
  mtime : Nat
deriving Repr, DecidableEq

/-- Output-artifact resolution, lines 216-227 of `handler`: glob for files
tagged with the job id; if none match, fall back to every `.png` file sorted
by modification time descending and keep the first `batch_size` entries.
Python's `sort(key=..., reverse=True)` is a stable sort under the total
preorder "later mtime first"; a stable sort's output is uniquely determined
by that preorder and the input order, so the stable `List.insertionSort` is
extensionally the same function.  `listing` is the content of the output
directory in filesystem enumeration order, shared by both globs. -/
def resolve_output_files (listing : List FileEntry) (job_id : String)
    (batch_size : Nat) : List FileEntry :=
  let image_files := listing.filter fun f => taggedMatch job_id f.name
  if image_files.isEmpty then
    let all_images := listing.filter fun f => isPng f.name
    let sorted := all_images.insertionSort fun a b => b.mtime ≤ a.mtime
    sorted.take batch_size
  else
    image_files

/-- The four required model files of `validate_models` (lines 60-65), as the
insertion-ordered pairs of the Python dict `required_models`. -/
def required_models : List (String × String) :=
  [("checkpoint", "/runpod-volume/models/checkpoints/flux1-dev.safetensors"),
   ("vae", "/runpod-volume/models/vae/ae.safetensors"),
   ("clip1", "/runpod-volume/models/clip/t5xxl_fp16.safetensors"),
   ("clip2", "/runpod-volume/models/clip/clip_l.safetensors")]

/-- The `missing_models` list collected by `validate_models` (lines 67-70):
one rendered entry `"{model_type}: {path}"` per required model whose path
does not exist.  `ex` is `os.path.exists`. -/
def missing_models (ex : String → Bool) : List String :=
  (required_models.filter fun p => !ex p.2).map fun p => p.1 ++ ": " ++ p.2

/-- `validate_models` (lines 57-79): true when no required model is missing.
The missing entries are printed to the log; only the boolean is returned. -/
def validate_models (ex : String → Bool) : Bool :=
  missing_models ex |>.isEmpty

/-- The base64 alphabet character for a 6-bit value. -/
def b64Char (n : Nat) : Char :=
  (['A', 'B', 'C', 'D', 'E', 'F', 'G', 'H', 'I', 'J', 'K', 'L', 'M', 'N',
    'O', 'P', 'Q', 'R', 'S', 'T', 'U', 'V', 'W', 'X', 'Y', 'Z',
    'a', 'b', 'c', 'd', 'e', 'f', 'g', 'h', 'i', 'j', 'k', 'l', 'm', 'n',
    'o', 'p', 'q', 'r', 's', 't', 'u', 'v', 'w', 'x', 'y', 'z',
    '0', '1', '2', '3', '4', '5', '6', '7', '8', '9', '+', '/']).getD n 'A'

/-- Standard base64 of a byte list, three bytes to four characters with `=`
padding (the behaviour of `base64.b64encode` at line 112). -/
def b64Chunks : List Nat → List Char
  | [] => []
  | [b1] => [b64Char (b1 / 4), b64Char (b1 % 4 * 16), '=', '=']
  | [b1, b2] =>
    [b64Char (b1 / 4), b64Char (b1 % 4 * 16 + b2 / 16), b64Char (b2 % 16 * 4), '=']
  | b1 :: b2 :: b3 :: rest =>
    b64Char (b1 / 4) :: b64Char (b1 % 4 * 16 + b2 / 16) ::
      b64Char (b2 % 16 * 4 + b3 / 64) :: b64Char (b3 % 64) :: b64Chunks rest

/-- Base64 encoding of file bytes as an ASCII string. -/
def base64_encode (bytes : List Nat) : String :=
  String.mk (b64Chunks (bytes.map (· % 256)))

/-- `convert_images_to_base64` (lines 105-118): encode each image file in
order; a file whose read raises (`read_file` returns `none`) is logged and
skipped, never fatal.  `read_file` models `open(path).read()`. -/
def convert_images_to_base64 (read_file : String → Option (List Nat)) :
    List String → List String
  | [] => []
  | image_path :: rest =>
    match read_file image_path with
    | some bytes => base64_encode bytes :: convert_images_to_base64 read_file rest
    | none => convert_images_to_base64 read_file rest

/-- The successful output dict built at lines 236-242. -/
structure GenOutput where
  images : List String
  job_id : String
  prompt : String
  image_count : Nat
  generation_params_prompt : Option String
  generation_params_batch_size : Option Nat
deriving Repr, DecidableEq

/-- One webhook delivery attempt: the payload built at lines 126-135 plus the
target URL. -/
structure WebhookEvent where
  url : String
  job_id : String
  status : String
  timestamp : Nat
  output : Option GenOutput
  error : Option String
deriving Repr, DecidableEq

/-- `send_webhook` (lines 120-141), returning the list of delivery attempts it
performs (empty or a singleton).  `net` is the outcome of `requests.post` per
URL; a raised delivery error is caught at line 140 and only logged, so both
arms of the match return the attempt and the function never raises. -/
def send_webhook (net : String → Except String Unit) (now : Nat)
    (webhook_url : Option String) (status : String) (job_id : String)
    (output : Option GenOutput) (error : Option String) : List WebhookEvent :=
  match webhook_url with
  | none => []
  | some url =>
    let attempt : WebhookEvent := ⟨url, job_id, status, now, output, error⟩
    match net url with
    | .ok _ => [attempt]
    | .error _ => [attempt]

/-- The `params` dict of the request.  Only `prompt` and `batch_size` are read
by the handler; `width`/`height` are carried opaquely inside
`generation_params` and are not modelled as separate fields. -/
structure Params where
  prompt : Option String
  batch_size : Option Nat
deriving Repr, DecidableEq

/-- The `input` object of the request (lines 166-171).  `workflow` is an
opaque JSON object modelled as a key-value list; the Python truthiness test
`not workflow` is emptiness. -/
structure InputData where
  job_id : Option String
  user_id : Option String
  workflow : List (String × String)
  params : Params
  webhook_url : Option String
deriving Repr, DecidableEq

/-- The default input used when `event` has no `input` key: every field takes
the `.get` default of lines 166-171. -/
def inputDefault : InputData := ⟨none, none, [], ⟨none, none⟩, none⟩

/-- Python truthiness of `not params.get('prompt')` at line 182: the prompt is
absent or the empty string. -/
def promptMissing : Option String → Bool
  | none => true
  | some s => s.data.isEmpty

/-- Everything the handler observes from its surroundings in one invocation:
outcome of `setup_comfyui`, `os.path.exists` on model paths, the outcome of
`execute_comfyui_workflow`, the output-directory listing seen by the globs,
file readability for the encoder, the generated uuid and the clock. -/
structure Env where
  setup_ok : Bool
  model_file_exists : String → Bool
  exec_result : Except String Unit
  output_listing : List FileEntry
  read_file : String → Option (List Nat)
  fresh_id : String
  now : Nat

/-- The value returned by `handler` to the platform: either the error dict
`{"error": msg}` or the success output dict. -/
inductive HandlerResult where
  | err : String → HandlerResult
  | ok : GenOutput → HandlerResult
deriving Repr, DecidableEq

/-- The body of `handler` (lines 161-265) on extracted input data, returning
the result together with the ordered webhook attempts.  Every failure path is
caught in the source and converted to a `{"error": ...}` return, which is why
the model is a total function into `HandlerResult`. -/
def handler_core (net : String → Except String Unit) (env : Env)
    (input_data : InputData) : HandlerResult × List WebhookEvent :=
  let job_id := input_data.job_id.getD env.fresh_id
  let params := input_data.params
  let webhook_url := input_data.webhook_url
  if input_data.workflow.isEmpty then
    let error_msg := "Missing workflow in input"
    (.err error_msg, send_webhook net env.now webhook_url "FAILED" job_id none (some error_msg))
  else if promptMissing params.prompt then
    let error_msg := "Missing prompt in params"
    (.err error_msg, send_webhook net env.now webhook_url "FAILED" job_id none (some error_msg))
  else
    let progress := send_webhook net env.now webhook_url "IN_PROGRESS" job_id none none
    if !env.setup_ok then
      let error_msg := "Failed to initialize ComfyUI"
      (.err error_msg,
        progress ++ send_webhook net env.now webhook_url "FAILED" job_id none (some error_msg))
    else if !validate_models env.model_file_exists then
      let error_msg := "Required models not found in network volume"
      (.err error_msg,
        progress ++ send_webhook net env.now webhook_url "FAILED" job_id none (some error_msg))
    else
      match env.exec_result with
      | .error we =>
        let error_msg := "Workflow execution failed: " ++ we
        (.err error_msg,
          progress ++ send_webhook net env.now webhook_url "FAILED" job_id none (some error_msg))
      | .ok _ =>
        let image_files :=
          resolve_output_files env.output_listing job_id (params.batch_size.getD 1)
        if image_files.isEmpty then
          let error_msg := "No images generated"
          (.err error_msg,
            progress ++ send_webhook net env.now webhook_url "FAILED" job_id none (some error_msg))
        else
          let base64_images :=
            convert_images_to_base64 env.read_file (image_files.map (·.name))
          let output : GenOutput :=
            { images := base64_images
              job_id := job_id
              prompt := (params.prompt.getD "")
              image_count := base64_images.length
              generation_params_prompt := params.prompt
              generation_params_batch_size := params.batch_size }
          (.ok output,
            progress ++ send_webhook net env.now webhook_url "COMPLETED" job_id (some output) none)

/-- `handler` on the raw event: `event.get('input', {})` of line 166. -/
def handler (net : String → Except String Unit) (env : Env)
    (event : Option InputData) : HandlerResult × List WebhookEvent :=
  handler_core net env (event.getD inputDefault)

/-- Number of webhook attempts with the given status. -/
def statusCount (evs : List WebhookEvent) (s : String) : Nat :=
  (evs.filter fun e => e.status == s).length

/-- A network on which every `requests.post` succeeds, for concrete runs. -/
def netOk : String → Except String Unit := fun _ => .ok ()

/-- A concrete healthy environment: setup succeeds, all model files exist,
execution succeeds, and the output directory holds one file tagged for job
`job-7` plus one untagged file; every file read yields the bytes of `Man`. -/
def envOk : Env :=
  { setup_ok := true
    model_file_exists := fun _ => true
    exec_result := .ok ()
    output_listing := [⟨"runpod_generation_job-7_1.png", 5⟩, ⟨"other.png", 9⟩]
    read_file := fun _ => some [77, 97, 110]
    fresh_id := "uuid-0"
    now := 42 }

/-- A concrete well-formed request for job `job-7` with a callback URL. -/
def inpOk : InputData :=
  ⟨some "job-7", some "user-1", [("3", "KSampler")], ⟨some "a cat", some 1⟩,
   some "http://cb"⟩

/-- The healthy environment except that the checkpoint model file is the one
path that does not exist. -/
def envMissingCkpt : Env :=
  { envOk with
    model_file_exists :=
      fun p => !(p == "/runpod-volume/models/checkpoints/flux1-dev.safetensors") }

/-- The healthy environment except that both clip model files are absent. -/
def envMissingClips : Env :=
  { envOk with
    model_file_exists :=
      fun p => !(p == "/runpod-volume/models/clip/t5xxl_fp16.safetensors") &&
               !(p == "/runpod-volume/models/clip/clip_l.safetensors") }

/-! Helper lemmas: explicit forms of `send_webhook`, webhook-status counting,
and one equation per control-flow branch of `handler_core`. -/

theorem send_webhook_none_eq (net : String → Except String Unit) (now : Nat)
    (status job_id : String) (o : Option GenOutput) (e : Option String) :
    send_webhook net now none status job_id o e = [] := rfl

theorem send_webhook_some_eq (net : String → Except String Unit) (now : Nat)
    (url status job_id : String) (o : Option GenOutput) (e : Option String) :
    send_webhook net now (some url) status job_id o e
      = [⟨url, job_id, status, now, o, e⟩] := by
  unfold send_webhook
  cases h : net url <;> simp [h]

theorem send_webhook_net_irrel (net net' : String → Except String Unit)
    (now : Nat) (u : Option String) (status job_id : String)
    (o : Option GenOutput) (e : Option String) :
    send_webhook net now u status job_id o e
      = send_webhook net' now u status job_id o e := by
  cases u with
  | none => rfl
  | some url => rw [send_webhook_some_eq, send_webhook_some_eq]

theorem handler_core_wf_empty (net : String → Except String Unit) (env : Env)
    (inp : InputData) (hw : inp.workflow.isEmpty = true) :
    handler_core net env inp =
      (.err "Missing workflow in input",
       send_webhook net env.now inp.webhook_url "FAILED"
         (inp.job_id.getD env.fresh_id) none (some "Missing workflow in input")) := by
  simp only [handler_core, hw, if_true]

theorem handler_core_prompt_missing (net : String → Except String Unit)
    (env : Env) (inp : InputData) (hw : inp.workflow.isEmpty = false)
    (hp : promptMissing inp.params.prompt = true) :
    handler_core net env inp =
      (.err "Missing prompt in params",
       send_webhook net env.now inp.webhook_url "FAILED"
         (inp.job_id.getD env.fresh_id) none (some "Missing prompt in params")) := by
  simp only [handler_core, hw, hp, Bool.false_eq_true, if_false, if_true]

theorem handler_core_setup_fail (net : String → Except String Unit) (env : Env)
    (inp : InputData) (hw : inp.workflow.isEmpty = false)
    (hp : promptMissing inp.params.prompt = false)
    (hs : env.setup_ok = false) :
    handler_core net env inp =
      (.err "Failed to initialize ComfyUI",
       send_webhook net env.now inp.webhook_url "IN_PROGRESS"
         (inp.job_id.getD env.fresh_id) none none ++
       send_webhook net env.now inp.webhook_url "FAILED"
         (inp.job_id.getD env.fresh_id) none (some "Failed to initialize ComfyUI")) := by
  simp only [handler_core, hw, hp, hs, Bool.false_eq_true, if_false, Bool.not_false, if_true]

theorem handler_core_models_fail (net : String → Except String Unit) (env : Env)
    (inp : InputData) (hw : inp.workflow.isEmpty = false)
    (hp : promptMissing inp.params.prompt = false)
    (hs : env.setup_ok = true)
    (hm : validate_models env.model_file_exists = false) :
    handler_core net env inp =
      (.err "Required models not found in network volume",
       send_webhook net env.now inp.webhook_url "IN_PROGRESS"
         (inp.job_id.getD env.fresh_id) none none ++
       send_webhook net env.now inp.webhook_url "FAILED"
         (inp.job_id.getD env.fresh_id) none
         (some "Required models not found in network volume")) := by
  simp only [handler_core, hw, hp, hs, hm, Bool.false_eq_true, if_false,
    Bool.not_false, Bool.not_true, if_true]

theorem handler_core_exec_fail (net : String → Except String Unit) (env : Env)
    (inp : InputData) (we : String) (hw : inp.workflow.isEmpty = false)
    (hp : promptMissing inp.params.prompt = false)
    (hs : env.setup_ok = true)
    (hm : validate_models env.model_file_exists = true)
    (hx : env.exec_result = .error we) :
    handler_core net env inp =
      (.err ("Workflow execution failed: " ++ we),
       send_webhook net env.now inp.webhook_url "IN_PROGRESS"
         (inp.job_id.getD env.fresh_id) none none ++
       send_webhook net env.now inp.webhook_url "FAILED"
         (inp.job_id.getD env.fresh_id) none
         (some ("Workflow execution failed: " ++ we))) := by
  simp only [handler_core, hw, hp, hs, hm, hx, Bool.false_eq_true, if_false,
    Bool.not_false, Bool.not_true, if_true]

theorem handler_core_no_images (net : String → Except String Unit) (env : Env)
    (inp : InputData) (hw : inp.workflow.isEmpty = false)
    (hp : promptMissing inp.params.prompt = false)
    (hs : env.setup_ok = true)
    (hm : validate_models env.model_file_exists = true)
    (hx : env.exec_result = .ok ())
    (hr : resolve_output_files env.output_listing (inp.job_id.getD env.fresh_id)
            (inp.params.batch_size.getD 1) = []) :
    handler_core net env inp =
      (.err "No images generated",
       send_webhook net env.now inp.webhook_url "IN_PROGRESS"
         (inp.job_id.getD env.fresh_id) none none ++
       send_webhook net env.now inp.webhook_url "FAILED"
         (inp.job_id.getD env.fresh_id) none (some "No images generated")) := by
  simp only [handler_core, hw, hp, hs, hm, hx, hr, Bool.false_eq_true, if_false,
    Bool.not_false, Bool.not_true, if_true, List.isEmpty_nil]

/-- The output dict the handler builds on the success path (lines 236-242),
as a function of the environment and the input. -/
def successOutput (env : Env) (inp : InputData) : GenOutput :=
  { images := convert_images_to_base64 env.read_file
      ((resolve_output_files env.output_listing (inp.job_id.getD env.fresh_id)
        (inp.params.batch_size.getD 1)).map (·.name))
    job_id := inp.job_id.getD env.fresh_id
    prompt := (inp.params.prompt.getD "")
    image_count := (convert_images_to_base64 env.read_file
      ((resolve_output_files env.output_listing (inp.job_id.getD env.fresh_id)
        (inp.params.batch_size.getD 1)).map (·.name))).length
    generation_params_prompt := inp.params.prompt
    generation_params_batch_size := inp.params.batch_size }

theorem handler_core_success (net : String → Except String Unit) (env : Env)
    (inp : InputData) (hw : inp.workflow.isEmpty = false)
    (hp : promptMissing inp.params.prompt = false)
    (hs : env.setup_ok = true)
    (hm : validate_models env.model_file_exists = true)
    (hx : env.exec_result = .ok ())
    (hr : (resolve_output_files env.output_listing (inp.job_id.getD env.fresh_id)
            (inp.params.batch_size.getD 1)).isEmpty = false) :
    handler_core net env inp =
      (.ok (successOutput env inp),
       send_webhook net env.now inp.webhook_url "IN_PROGRESS"
         (inp.job_id.getD env.fresh_id) none none ++
       send_webhook net env.now inp.webhook_url "COMPLETED"
         (inp.job_id.getD env.fresh_id) (some (successOutput env inp)) none) := by
  simp only [handler_core, hw, hp, hs, hm, hx, hr, Bool.false_eq_true, if_false,
    Bool.not_false, Bool.not_true, if_true, successOutput]

/-- C1: for every request whose workflow is empty/absent or whose
params.prompt is empty/absent, the handler returns the error dict, and when a
callback URL is supplied exactly one FAILED webhook and zero COMPLETED
webhooks are attempted. -/
theorem handler_missing_input_fails (net : String → Except String Unit)
    (env : Env) (inp : InputData)
    (h : inp.workflow = [] ∨ promptMissing inp.params.prompt = true) :
    (∃ m, (handler_core net env inp).1 = HandlerResult.err m) ∧
    (∀ url, inp.webhook_url = some url →
      statusCount (handler_core net env inp).2 "FAILED" = 1 ∧
      statusCount (handler_core net env inp).2 "COMPLETED" = 0) := by
  cases hw : inp.workflow.isEmpty with
  | true =>
    rw [handler_core_wf_empty net env inp hw]
    refine ⟨⟨_, rfl⟩, fun url hu => ?_⟩
    rw [hu, send_webhook_some_eq]
    exact ⟨rfl, rfl⟩
  | false =>
    have hp : promptMissing inp.params.prompt = true := by
      rcases h with h | h
      · rw [h] at hw
        simp at hw
      · exact h
    rw [handler_core_prompt_missing net env inp hw hp]
    refine ⟨⟨_, rfl⟩, fun url hu => ?_⟩
    rw [hu, send_webhook_some_eq]
    exact ⟨rfl, rfl⟩

/-- C1 witness: a concrete request with a workflow but an empty prompt. -/
theorem handler_missing_input_fails_witness :
    (∃ m, (handler_core (fun _ => .ok ())
      ⟨true, fun _ => true, .ok (), [], fun _ => none, "uuid-1", 7⟩
      ⟨some "j1", none, [("k", "v")], ⟨some "", none⟩, some "http://cb"⟩).1
        = HandlerResult.err m) ∧
    statusCount (handler_core (fun _ => .ok ())
      ⟨true, fun _ => true, .ok (), [], fun _ => none, "uuid-1", 7⟩
      ⟨some "j1", none, [("k", "v")], ⟨some "", none⟩, some "http://cb"⟩).2 "FAILED" = 1 ∧
    statusCount (handler_core (fun _ => .ok ())
      ⟨true, fun _ => true, .ok (), [], fun _ => none, "uuid-1", 7⟩
      ⟨some "j1", none, [("k", "v")], ⟨some "", none⟩, some "http://cb"⟩).2 "COMPLETED" = 0 := by
  have h := handler_missing_input_fails (fun _ => .ok ())
    ⟨true, fun _ => true, .ok (), [], fun _ => none, "uuid-1", 7⟩
    ⟨some "j1", none, [("k", "v")], ⟨some "", none⟩, some "http://cb"⟩
    (Or.inr (by decide))
  exact ⟨h.1, (h.2 "http://cb" rfl).1, (h.2 "http://cb" rfl).2⟩

/-- C8: the notifier is a no-op without a URL, its attempts do not depend on
the network outcome, and the handler's entire behaviour (result and attempts)
is unchanged by notification-delivery failures. -/
theorem send_webhook_best_effort (net net' : String → Except String Unit)
    (now : Nat) (status job_id : String) (o : Option GenOutput)
    (e : Option String) :
    send_webhook net now none status job_id o e = [] ∧
    (∀ url, send_webhook net now (some url) status job_id o e
          = send_webhook net' now (some url) status job_id o e) ∧
    (∀ env inp, handler_core net env inp = handler_core net' env inp) := by
  refine ⟨rfl, fun url => send_webhook_net_irrel net net' now (some url) status job_id o e,
    fun env inp => ?_⟩
  unfold handler_core
  simp only [send_webhook_net_irrel net net']

theorem handler_core_shape (net : String → Except String Unit) (env : Env)
    (inp : InputData) :
    (∃ m, (handler_core net env inp).1 = HandlerResult.err m ∧
      ∀ url, inp.webhook_url = some url →
        statusCount (handler_core net env inp).2 "FAILED" = 1 ∧
        statusCount (handler_core net env inp).2 "COMPLETED" = 0) ∨
    (∃ o, (handler_core net env inp).1 = HandlerResult.ok o ∧
      ∀ url, inp.webhook_url = some url →
        statusCount (handler_core net env inp).2 "COMPLETED" = 1 ∧
        statusCount (handler_core net env inp).2 "FAILED" = 0) := by
  cases hw : inp.workflow.isEmpty with
  | true =>
    rw [handler_core_wf_empty net env inp hw]
    exact Or.inl ⟨_, rfl, fun url hu => by
      rw [hu, send_webhook_some_eq]; exact ⟨rfl, rfl⟩⟩
  | false =>
    cases hp : promptMissing inp.params.prompt with
    | true =>
      rw [handler_core_prompt_missing net env inp hw hp]
      exact Or.inl ⟨_, rfl, fun url hu => by
        rw [hu, send_webhook_some_eq]; exact ⟨rfl, rfl⟩⟩
    | false =>
      cases hs : env.setup_ok with
      | false =>
        rw [handler_core_setup_fail net env inp hw hp hs]
        exact Or.inl ⟨_, rfl, fun url hu => by
          rw [hu, send_webhook_some_eq, send_webhook_some_eq]; exact ⟨rfl, rfl⟩⟩
      | true =>
        cases hm : validate_models env.model_file_exists with
        | false =>
          rw [handler_core_models_fail net env inp hw hp hs hm]
          exact Or.inl ⟨_, rfl, fun url hu => by
            rw [hu, send_webhook_some_eq, send_webhook_some_eq]; exact ⟨rfl, rfl⟩⟩
        | true =>
          cases hx : env.exec_result with
          | error we =>
            rw [handler_core_exec_fail net env inp we hw hp hs hm hx]
            exact Or.inl ⟨_, rfl, fun url hu => by
              rw [hu, send_webhook_some_eq, send_webhook_some_eq]; exact ⟨rfl, rfl⟩⟩
          | ok u =>
            cases u
            cases hr : (resolve_output_files env.output_listing
                (inp.job_id.getD env.fresh_id)
                (inp.params.batch_size.getD 1)).isEmpty with
            | true =>
              rw [handler_core_no_images net env inp hw hp hs hm hx
                (List.isEmpty_iff.mp hr)]
              exact Or.inl ⟨_, rfl, fun url hu => by
                rw [hu, send_webhook_some_eq, send_webhook_some_eq]; exact ⟨rfl, rfl⟩⟩
            | false =>
              rw [handler_core_success net env inp hw hp hs hm hx hr]
              exact Or.inr ⟨_, rfl, fun url hu => by
                rw [hu, send_webhook_some_eq, send_webhook_some_eq]; exact ⟨rfl, rfl⟩⟩

/-- C5: every invocation returns a well-formed result object — the error dict
or the success dict, never an uncaught fault — and when a callback URL is
supplied, an error outcome comes with exactly one FAILED attempt and no
COMPLETED attempt, while a success outcome comes with exactly one COMPLETED
attempt and no FAILED attempt. -/
theorem handler_never_raises (net : String → Except String Unit) (env : Env)
    (inp : InputData) :
    ((∃ m, (handler_core net env inp).1 = HandlerResult.err m) ∨
     (∃ o, (handler_core net env inp).1 = HandlerResult.ok o)) ∧
    (∀ url, inp.webhook_url = some url →
      ((∃ m, (handler_core net env inp).1 = HandlerResult.err m) →
        statusCount (handler_core net env inp).2 "FAILED" = 1 ∧
        statusCount (handler_core net env inp).2 "COMPLETED" = 0) ∧
      ((∃ o, (handler_core net env inp).1 = HandlerResult.ok o) →
        statusCount (handler_core net env inp).2 "COMPLETED" = 1 ∧
        statusCount (handler_core net env inp).2 "FAILED" = 0)) := by
  rcases handler_core_shape net env inp with ⟨m, hm, hcount⟩ | ⟨o, ho, hcount⟩
  · refine ⟨Or.inl ⟨m, hm⟩, fun url hu =>
      ⟨fun _ => hcount url hu, fun ⟨o, ho⟩ => ?_⟩⟩
    rw [hm] at ho
    cases ho
  · refine ⟨Or.inr ⟨o, ho⟩, fun url hu =>
      ⟨fun ⟨m, hm⟩ => ?_, fun _ => hcount url hu⟩⟩
    rw [ho] at hm
    cases hm

/-- C5 witness: on a concrete healthy run the success side of the boundary
theorem applies and yields one COMPLETED attempt and no FAILED attempt. -/
theorem handler_never_raises_witness :
    statusCount (handler_core netOk envOk inpOk).2 "COMPLETED" = 1 ∧
    statusCount (handler_core netOk envOk inpOk).2 "FAILED" = 0 :=
  ((handler_never_raises netOk envOk inpOk).2 "http://cb" rfl).2
    ⟨successOutput envOk inpOk, by decide⟩

/-- C9: whenever the handler returns the success dict, its image_count field
equals the number of entries of its images list, and every COMPLETED
notification attempted in that run carries exactly that output. -/
theorem success_image_count (net : String → Except String Unit) (env : Env)
    (inp : InputData) (o : GenOutput)
    (ho : (handler_core net env inp).1 = HandlerResult.ok o) :
    o.image_count = o.images.length ∧
    (∀ ev ∈ (handler_core net env inp).2, ev.status = "COMPLETED" →
      ev.output = some o) := by
  cases hw : inp.workflow.isEmpty with
  | true =>
    rw [handler_core_wf_empty net env inp hw] at ho
    cases ho
  | false =>
    cases hp : promptMissing inp.params.prompt with
    | true =>
      rw [handler_core_prompt_missing net env inp hw hp] at ho
      cases ho
    | false =>
      cases hs : env.setup_ok with
      | false =>
        rw [handler_core_setup_fail net env inp hw hp hs] at ho
        cases ho
      | true =>
        cases hm : validate_models env.model_file_exists with
        | false =>
          rw [handler_core_models_fail net env inp hw hp hs hm] at ho
          cases ho
        | true =>
          cases hx : env.exec_result with
          | error we =>
            rw [handler_core_exec_fail net env inp we hw hp hs hm hx] at ho
            cases ho
          | ok u =>
            cases u
            cases hr : (resolve_output_files env.output_listing
                (inp.job_id.getD env.fresh_id)
                (inp.params.batch_size.getD 1)).isEmpty with
            | true =>
              rw [handler_core_no_images net env inp hw hp hs hm hx
                (List.isEmpty_iff.mp hr)] at ho
              cases ho
            | false =>
              have hsucc := handler_core_success net env inp hw hp hs hm hx hr
              rw [hsucc] at ho
              have hoo : o = successOutput env inp := by
                cases ho
                rfl
              subst hoo
              refine ⟨rfl, ?_⟩
              rw [hsucc]
              cases hu : inp.webhook_url with
              | none =>
                intro ev hev hst
                rw [send_webhook_none_eq, send_webhook_none_eq] at hev
                cases hev
              | some url =>
                intro ev hev hst
                rw [send_webhook_some_eq, send_webhook_some_eq] at hev
                rcases List.mem_append.mp hev with h | h
                · rcases List.mem_singleton.mp h with rfl
                  simp at hst
                · rcases List.mem_singleton.mp h with rfl
                  rfl

/-- C9 witness: the concrete healthy run returns a success output whose
image_count matches its images list. -/
theorem success_image_count_witness :
    (successOutput envOk inpOk).image_count
      = (successOutput envOk inpOk).images.length :=
  (success_image_count netOk envOk inpOk (successOutput envOk inpOk)
    (by decide)).1

theorem taggedMatch_isPng (job_id name : String)
    (h : taggedMatch job_id name = true) : isPng name = true := by
  unfold taggedMatch at h
  rw [Bool.and_eq_true, Bool.and_eq_true] at h
  exact h.1.2

/-- C6: when the output directory holds no `.png` file at all, the tagged
glob also matches nothing, so resolution yields no artifacts and the handler
sends a FAILED notification and returns the error dict instead of a success
result. -/
theorem handler_no_artifacts (net : String → Except String Unit) (env : Env)
    (inp : InputData)
    (hw : inp.workflow.isEmpty = false)
    (hp : promptMissing inp.params.prompt = false)
    (hs : env.setup_ok = true)
    (hm : validate_models env.model_file_exists = true)
    (hx : env.exec_result = .ok ())
    (hpng : env.output_listing.filter (fun f => isPng f.name) = []) :
    (handler_core net env inp).1 = HandlerResult.err "No images generated" ∧
    (∀ url, inp.webhook_url = some url →
      statusCount (handler_core net env inp).2 "FAILED" = 1 ∧
      statusCount (handler_core net env inp).2 "COMPLETED" = 0) := by
  have htag : env.output_listing.filter
      (fun f => taggedMatch (inp.job_id.getD env.fresh_id) f.name) = [] := by
    rw [List.filter_eq_nil_iff]
    intro f hf hcontra
    have : isPng f.name = true :=
      taggedMatch_isPng (inp.job_id.getD env.fresh_id) f.name hcontra
    have hfmem : f ∈ env.output_listing.filter (fun f => isPng f.name) :=
      List.mem_filter.mpr ⟨hf, this⟩
    rw [hpng] at hfmem
    cases hfmem
  have hr : resolve_output_files env.output_listing
      (inp.job_id.getD env.fresh_id) (inp.params.batch_size.getD 1) = [] := by
    unfold resolve_output_files
    simp [htag, hpng]
  rw [handler_core_no_images net env inp hw hp hs hm hx hr]
  exact ⟨rfl, fun url hu => by
    rw [hu, send_webhook_some_eq, send_webhook_some_eq]; exact ⟨rfl, rfl⟩⟩

/-- C6 witness: a run whose output directory holds a single non-image file. -/
theorem handler_no_artifacts_witness :
    (handler_core netOk
        { envOk with output_listing := [⟨"note.txt", 3⟩] } inpOk).1
      = HandlerResult.err "No images generated" ∧
    statusCount (handler_core netOk
        { envOk with output_listing := [⟨"note.txt", 3⟩] } inpOk).2 "FAILED" = 1 := by
  have h := handler_no_artifacts netOk
    { envOk with output_listing := [⟨"note.txt", 3⟩] } inpOk
    (by decide) (by decide) (by decide) (by decide) rfl (by decide)
  exact ⟨h.1, (h.2 "http://cb" rfl).1⟩

/-- C10: a request with batch_size 0 whose job has no tagged output files
makes the fallback select zero files, so the handler reports the no-artifacts
failure even though untagged .png files are present in the directory. -/
theorem handler_batch_size_zero (net : String → Except String Unit) (env : Env)
    (inp : InputData)
    (hw : inp.workflow.isEmpty = false)
    (hp : promptMissing inp.params.prompt = false)
    (hs : env.setup_ok = true)
    (hm : validate_models env.model_file_exists = true)
    (hx : env.exec_result = .ok ())
    (htag : env.output_listing.filter
      (fun f => taggedMatch (inp.job_id.getD env.fresh_id) f.name) = [])
    (hbs : inp.params.batch_size = some 0)
    (_hpng : env.output_listing.filter (fun f => isPng f.name) ≠ []) :
    (handler_core net env inp).1 = HandlerResult.err "No images generated" ∧
    (∀ url, inp.webhook_url = some url →
      statusCount (handler_core net env inp).2 "FAILED" = 1 ∧
      statusCount (handler_core net env inp).2 "COMPLETED" = 0) := by
  have hr : resolve_output_files env.output_listing
      (inp.job_id.getD env.fresh_id) (inp.params.batch_size.getD 1) = [] := by
    rw [hbs]
    unfold resolve_output_files
    simp [htag]
  rw [handler_core_no_images net env inp hw hp hs hm hx hr]
  exact ⟨rfl, fun url hu => by
    rw [hu, send_webhook_some_eq, send_webhook_some_eq]; exact ⟨rfl, rfl⟩⟩

/-- C10 witness: job `zzz` with batch_size 0 and two untagged .png files
present still yields the no-artifacts error. -/
theorem handler_batch_size_zero_witness :
    (handler_core netOk
        { envOk with output_listing := [⟨"a.png", 1⟩, ⟨"b.png", 2⟩] }
        ⟨some "zzz", none, [("3", "KSampler")], ⟨some "a cat", some 0⟩,
         some "http://cb"⟩).1
      = HandlerResult.err "No images generated" ∧
    statusCount (handler_core netOk
        { envOk with output_listing := [⟨"a.png", 1⟩, ⟨"b.png", 2⟩] }
        ⟨some "zzz", none, [("3", "KSampler")], ⟨some "a cat", some 0⟩,
         some "http://cb"⟩).2 "COMPLETED" = 0 := by
  have h := handler_batch_size_zero netOk
    { envOk with output_listing := [⟨"a.png", 1⟩, ⟨"b.png", 2⟩] }
    ⟨some "zzz", none, [("3", "KSampler")], ⟨some "a cat", some 0⟩,
     some "http://cb"⟩
    (by decide) (by decide) (by decide) (by decide) rfl (by decide)
    (by decide) (by decide)
  exact ⟨h.1, (h.2 "http://cb" rfl).2⟩

/-- C4: when at least one file in the directory matches the job-tagged
pattern, the resolver returns exactly the matching files in enumeration order
and the recency fallback is not consulted. -/
theorem resolve_tagged_matches (listing : List FileEntry) (job_id : String)
    (batch_size : Nat)
    (h : listing.filter (fun f => taggedMatch job_id f.name) ≠ []) :
    resolve_output_files listing job_id batch_size
      = listing.filter (fun f => taggedMatch job_id f.name) := by
  have hne : (listing.filter (fun f => taggedMatch job_id f.name)).isEmpty
      = false := by
    cases hfe : (listing.filter (fun f => taggedMatch job_id f.name)).isEmpty
    · rfl
    · exact absurd (List.isEmpty_iff.mp hfe) h
  unfold resolve_output_files
  simp [hne]

/-- C4 witness: the file `runpod_generation_abc123_1.png` matches job
`abc123` and is returned alone, although an untagged file with a more recent
modification time sits in the same directory. -/
theorem resolve_tagged_matches_witness :
    taggedMatch "abc123" "runpod_generation_abc123_1.png" = true ∧
    resolve_output_files
        [⟨"other.png", 9⟩, ⟨"runpod_generation_abc123_1.png", 1⟩] "abc123" 1
      = [⟨"runpod_generation_abc123_1.png", 1⟩] := by
  have h := resolve_tagged_matches
    [⟨"other.png", 9⟩, ⟨"runpod_generation_abc123_1.png", 1⟩] "abc123" 1
    (by decide)
  refine ⟨by decide, ?_⟩
  rw [h]
  decide

/-- C2 counterexample: with exactly the checkpoint file missing, the checker
does collect the single missing entry, but the error returned to the caller
is the fixed message `Required models not found in network volume`, which
does not contain the missing entry (not even the word `checkpoint`): the
caller-visible error lists a strict subset (none) of the missing entries. -/
theorem missing_models_caller_error_counterexample :
    missing_models envMissingCkpt.model_file_exists
      = ["checkpoint: /runpod-volume/models/checkpoints/flux1-dev.safetensors"] ∧
    (handler_core netOk envMissingCkpt inpOk).1
      = HandlerResult.err "Required models not found in network volume" ∧
    containsSub "checkpoint".data
      "Required models not found in network volume".data = false := by
  refine ⟨by decide, by decide, by decide⟩

/-- C2 (amended): the precondition checker examines all requirements before
failing — the collected (and logged) missing list contains exactly the
rendered entry of every required model whose path does not exist, never a
strict subset — while the error dict returned to the caller carries the fixed
summary message, which does not enumerate the entries. -/
theorem validate_models_collects_all (net : String → Except String Unit)
    (env : Env) (inp : InputData)
    (hw : inp.workflow.isEmpty = false)
    (hp : promptMissing inp.params.prompt = false)
    (hs : env.setup_ok = true)
    (hm : validate_models env.model_file_exists = false) :
    (∀ mt p, (mt, p) ∈ required_models → env.model_file_exists p = false →
      (mt ++ ": " ++ p) ∈ missing_models env.model_file_exists) ∧
    (∀ e ∈ missing_models env.model_file_exists,
      ∃ mt p, (mt, p) ∈ required_models ∧ env.model_file_exists p = false ∧
        e = mt ++ ": " ++ p) ∧
    (handler_core net env inp).1
      = HandlerResult.err "Required models not found in network volume" := by
  refine ⟨?_, ?_, ?_⟩
  · intro mt p hmem hex
    unfold missing_models
    exact List.mem_map_of_mem _ (List.mem_filter.mpr ⟨hmem, by simp [hex]⟩)
  · intro e he
    unfold missing_models at he
    rcases List.mem_map.mp he with ⟨q, hq, rfl⟩
    rcases List.mem_filter.mp hq with ⟨hql, hqp⟩
    exact ⟨q.1, q.2, hql, by simpa using hqp, rfl⟩
  · rw [handler_core_models_fail net env inp hw hp hs hm]

/-- C2 witness: with the two clip files missing, both rendered entries are in
the collected list and the caller receives the fixed message. -/
theorem validate_models_collects_all_witness :
    ("clip1: /runpod-volume/models/clip/t5xxl_fp16.safetensors"
        ∈ missing_models envMissingClips.model_file_exists) ∧
    ("clip2: /runpod-volume/models/clip/clip_l.safetensors"
        ∈ missing_models envMissingClips.model_file_exists) ∧
    (handler_core netOk envMissingClips inpOk).1
      = HandlerResult.err "Required models not found in network volume" := by
  have h := validate_models_collects_all netOk envMissingClips inpOk
    (by decide) (by decide) (by decide) (by decide)
  exact ⟨h.1 "clip1" "/runpod-volume/models/clip/t5xxl_fp16.safetensors"
      (by decide) (by decide),
    h.1 "clip2" "/runpod-volume/models/clip/clip_l.safetensors"
      (by decide) (by decide),
    h.2.2⟩

/-- C7: the encoder yields one base64 encoding per successfully read file, in
input order — formally it is the filterMap of reading then encoding, its
length is the number of readable files — and when every read fails it returns
the empty list, not an error. -/
theorem convert_images_isolates_failures
    (read_file : String → Option (List Nat)) (paths : List String) :
    convert_images_to_base64 read_file paths
      = paths.filterMap (fun p => (read_file p).map base64_encode) ∧
    (convert_images_to_base64 read_file paths).length
      = (paths.filter (fun p => (read_file p).isSome)).length ∧
    ((∀ p ∈ paths, read_file p = none) →
      convert_images_to_base64 read_file paths = []) := by
  have hmain : convert_images_to_base64 read_file paths
      = paths.filterMap (fun p => (read_file p).map base64_encode) := by
    induction paths with
    | nil => rfl
    | cons p rest ih =>
      unfold convert_images_to_base64
      cases hp : read_file p with
      | none => simp [List.filterMap_cons, hp, ih]
      | some bytes => simp [List.filterMap_cons, hp, ih]
  refine ⟨hmain, ?_, ?_⟩
  · clear hmain
    induction paths with
    | nil => rfl
    | cons p rest ih =>
      unfold convert_images_to_base64
      cases hp : read_file p with
      | none => simpa [List.filter_cons, hp] using ih
      | some bytes => simpa [List.filter_cons, hp] using ih
  · intro hall
    rw [hmain, List.filterMap_eq_nil_iff]
    intro p hpmem
    rw [hall p hpmem]
    rfl

/-- C7 witness: two readable files and one unreadable file yield exactly two
encodings, and an all-unreadable batch yields the empty list. -/
theorem convert_images_isolates_failures_witness :
    (convert_images_to_base64
        (fun p => if p == "bad.png" then none else some [77, 97, 110])
        ["a.png", "bad.png", "b.png"]).length = 2 ∧
    convert_images_to_base64 (fun _ => none) ["x.png", "y.png"] = [] := by
  constructor
  · rw [(convert_images_isolates_failures
      (fun p => if p == "bad.png" then none else some [77, 97, 110])
      ["a.png", "bad.png", "b.png"]).2.1]
    decide
  · exact (convert_images_isolates_failures (fun _ => none)
      ["x.png", "y.png"]).2.2 (by simp)

theorem sorted_take_facts (l : List FileEntry) (n : Nat)
    (hdist : l.Pairwise (fun a b => a.mtime ≠ b.mtime)) :
    ((List.insertionSort (fun a b => b.mtime ≤ a.mtime) l).take n).length
      = min n l.length ∧
    ((List.insertionSort (fun a b => b.mtime ≤ a.mtime) l).take n).Pairwise
      (fun a b => b.mtime < a.mtime) ∧
    (∀ x ∈ (List.insertionSort (fun a b => b.mtime ≤ a.mtime) l).take n,
      x ∈ l) ∧
    (∀ x ∈ (List.insertionSort (fun a b => b.mtime ≤ a.mtime) l).take n,
      ∀ y ∈ l,
        y ∉ (List.insertionSort (fun a b => b.mtime ≤ a.mtime) l).take n →
          y.mtime < x.mtime) := by
  haveI : IsTotal FileEntry (fun a b => b.mtime ≤ a.mtime) :=
    ⟨fun a b => Nat.le_total b.mtime a.mtime⟩
  haveI : IsTrans FileEntry (fun a b => b.mtime ≤ a.mtime) :=
    ⟨fun _ _ _ hab hbc => Nat.le_trans hbc hab⟩
  have hperm := List.perm_insertionSort (fun a b => b.mtime ≤ a.mtime) l
  have hsorted := List.sorted_insertionSort (fun a b => b.mtime ≤ a.mtime) l
  have hsym : Symmetric (fun a b : FileEntry => a.mtime ≠ b.mtime) :=
    fun _ _ h => Ne.symm h
  have hdistS : (List.insertionSort (fun a b => b.mtime ≤ a.mtime) l).Pairwise
      (fun a b => a.mtime ≠ b.mtime) := (hperm.pairwise_iff @hsym).mpr hdist
  refine ⟨?_, ?_, ?_, ?_⟩
  · rw [List.length_take, hperm.length_eq]
  · have hle := hsorted.sublist (List.take_sublist n _)
    have hne := hdistS.sublist (List.take_sublist n _)
    exact (hle.and hne).imp (fun h => lt_of_le_of_ne h.1 h.2.symm)
  · intro x hx
    exact hperm.subset (List.mem_of_mem_take hx)
  · intro x hx y hy hyn
    have hyS : y ∈ List.insertionSort (fun a b => b.mtime ≤ a.mtime) l :=
      hperm.mem_iff.mpr hy
    have hsplit := List.take_append_drop n
      (List.insertionSort (fun a b => b.mtime ≤ a.mtime) l)
    have hydrop : y ∈ (List.insertionSort (fun a b => b.mtime ≤ a.mtime) l).drop n := by
      rcases List.mem_append.mp (by rw [hsplit]; exact hyS) with h | h
      · exact absurd h hyn
      · exact h
    have hsorted' : (((List.insertionSort (fun a b => b.mtime ≤ a.mtime) l).take n)
        ++ ((List.insertionSort (fun a b => b.mtime ≤ a.mtime) l).drop n)).Pairwise
        (fun a b => b.mtime ≤ a.mtime) := by rw [hsplit]; exact hsorted
    have hdist' : (((List.insertionSort (fun a b => b.mtime ≤ a.mtime) l).take n)
        ++ ((List.insertionSort (fun a b => b.mtime ≤ a.mtime) l).drop n)).Pairwise
        (fun a b => a.mtime ≠ b.mtime) := by rw [hsplit]; exact hdistS
    obtain ⟨-, -, hcross⟩ := List.pairwise_append.mp hsorted'
    obtain ⟨-, -, hcrossne⟩ := List.pairwise_append.mp hdist'
    exact lt_of_le_of_ne (hcross x hx y hydrop) ((hcrossne x hx y hydrop).symm)

/-- C3: when the tagged search finds no files and the directory's `.png`
files have pairwise-distinct modification times, the fallback returns the
`batch_size` most-recently-modified `.png` files in descending
modification-time order: the result has length `min batch_size (number of
.png files)`, is strictly descending in mtime, draws only from the `.png`
files, and every `.png` file left out is strictly older than every returned
file. -/
theorem resolve_fallback_most_recent (listing : List FileEntry)
    (job_id : String) (batch_size : Nat)
    (htag : listing.filter (fun f => taggedMatch job_id f.name) = [])
    (_hne : listing.filter (fun f => isPng f.name) ≠ [])
    (hdist : (listing.filter (fun f => isPng f.name)).Pairwise
      (fun a b => a.mtime ≠ b.mtime)) :
    (resolve_output_files listing job_id batch_size).length
      = min batch_size (listing.filter (fun f => isPng f.name)).length ∧
    (resolve_output_files listing job_id batch_size).Pairwise
      (fun a b => b.mtime < a.mtime) ∧
    (∀ x ∈ resolve_output_files listing job_id batch_size,
      x ∈ listing.filter (fun f => isPng f.name)) ∧
    (∀ x ∈ resolve_output_files listing job_id batch_size,
      ∀ y ∈ listing.filter (fun f => isPng f.name),
        y ∉ resolve_output_files listing job_id batch_size →
          y.mtime < x.mtime) := by
  have hres : resolve_output_files listing job_id batch_size
      = (List.insertionSort (fun a b => b.mtime ≤ a.mtime)
          (listing.filter (fun f => isPng f.name))).take batch_size := by
    unfold resolve_output_files
    simp [htag]
  rw [hres]
  exact sorted_take_facts (listing.filter (fun f => isPng f.name))
    batch_size hdist

/-- C3 witness: job `zzz`, three untagged `.png` files with distinct mtimes
and batch_size 2 — the two most recent come back, newest first. -/
theorem resolve_fallback_most_recent_witness :
    resolve_output_files
        [⟨"a.png", 1⟩, ⟨"c.png", 3⟩, ⟨"b.png", 2⟩] "zzz" 2
      = [⟨"c.png", 3⟩, ⟨"b.png", 2⟩] ∧
    (resolve_output_files
        [⟨"a.png", 1⟩, ⟨"c.png", 3⟩, ⟨"b.png", 2⟩] "zzz" 2).length = 2 ∧
    (resolve_output_files
        [⟨"a.png", 1⟩, ⟨"c.png", 3⟩, ⟨"b.png", 2⟩] "zzz" 2).Pairwise
      (fun a b => b.mtime < a.mtime) := by
  have h := resolve_fallback_most_recent
    [⟨"a.png", 1⟩, ⟨"c.png", 3⟩, ⟨"b.png", 2⟩] "zzz" 2
    (by decide) (by decide) (by decide)
  exact ⟨by decide, h.1, h.2.1⟩
